import Mathlib

/-!
Verification of the PatchMon agent (Go) against its natural-language
specification.  The relevant source functions are shallowly embedded as
executable Lean definitions:

* `wsLoop` (cmd/patchmon-agent/commands/serve.go): reconnect backoff.
* `runService` dispatch loop (serve.go): message handling.
* `updateAgent` / `copyFile` (commands, version-update file): self-update
  over an explicit file-system model.
* `generateCronEntries` (internal/crontab/crontab.go): cron schedules.
* `sendReport` tail (commands, report file): partial-success handling.
-/

namespace PatchMon

/-! ## Reconnect backoff (`wsLoop`, serve.go lines 103-114)

Go source:
```
backoff := time.Second
for {
  if err := connectOnce(out); err != nil { ... log ... }
  time.Sleep(backoff)
  if backoff < 30*time.Second { backoff *= 2 }
}
```
Backoff is measured in seconds.  `wsIter` is one loop iteration's update
of the `backoff` variable; the source updates it identically whether
`connectOnce` returned an error or not, which the unused `Bool` argument
(did the connection succeed?) records faithfully. -/

def initialBackoff : Nat := 1

def wsIter (b : Nat) (_connSucceeded : Bool) : Nat :=
  if b < 30 then 2 * b else b

/-- Value `backoffAfter n` of the `backoff` variable after `n` loop iterations,
i.e. the sleep performed in iteration `n + 1`.  The wait before connection
attempt `N + 1` (after `N` consecutive failures) is `backoffAfter (N - 1)`. -/
def backoffAfter : Nat → Nat
  | 0 => initialBackoff
  | n + 1 => wsIter (backoffAfter n) false

/-! ## Dispatch loop (`runService`, serve.go lines 59-93)

The select loop reacts to ticker fires and inbound websocket messages.
`dispatch` maps the loop state (the interval behind the currently running
ticker) and one event to the new state plus the list of side-effecting
actions performed in that arm of the switch (log calls are omitted; action
failures are logged and never change state or stop the loop). -/

structure WsMsg where
  kind : String
  interval : Int
  version : String
  force : Bool
deriving DecidableEq, Repr

inductive Event
  | tick
  | msg (m : WsMsg)
deriving DecidableEq, Repr

inductive Action
  | sendReport
  | updateAgentAction
  | tickerReset (intervalMinutes : Int)
deriving DecidableEq, Repr

structure LoopState where
  tickerInterval : Int
deriving DecidableEq, Repr

def dispatch (s : LoopState) : Event → LoopState × List Action
  | .tick => (s, [.sendReport])
  | .msg m =>
    if m.kind = "settings_update" then
      if m.interval > 0 then
        ({ tickerInterval := m.interval }, [.tickerReset m.interval])
      else
        (s, [])
    else if m.kind = "report_now" then
      (s, [.sendReport])
    else if m.kind = "update_agent" then
      (s, [.updateAgentAction])
    else if m.kind = "update_notification" then
      if m.force then (s, [.updateAgentAction]) else (s, [])
    else
      (s, [])

/-! ## File-system model

The self-update claims are about files on disk, so the file system is
modelled explicitly as an association list from paths to files.  The
operations mirror the Go standard library calls used by the source:

* `os.ReadFile`   → `fsLookup` (error when absent),
* `os.WriteFile`  → `fsWriteFile` (creates with the given permission,
  truncates without changing permissions when the file exists),
* `os.Remove`     → `fsRemove` (error when absent),
* `os.Rename`     → `fsRename` (moves content and mode, error when the
  source is absent). -/

structure File where
  content : List Nat
  mode : Nat
deriving DecidableEq, Repr

abbrev FS := List (String × File)

def fsLookup : FS → String → Option File
  | [], _ => none
  | (q, f) :: rest, p => if q = p then some f else fsLookup rest p

def fsErase : FS → String → FS
  | [], _ => []
  | (q, f) :: rest, p => if q = p then fsErase rest p else (q, f) :: fsErase rest p

def fsWriteFile (fs : FS) (p : String) (data : List Nat) (perm : Nat) : FS :=
  match fsLookup fs p with
  | some f => (p, { content := data, mode := f.mode }) :: fsErase fs p
  | none => (p, { content := data, mode := perm }) :: fs

def fsRemove (fs : FS) (p : String) : Option FS :=
  match fsLookup fs p with
  | some _ => some (fsErase fs p)
  | none => none

def fsRename (fs : FS) (src dst : String) : Option FS :=
  match fsLookup fs src with
  | some f => some ((dst, f) :: fsErase (fsErase fs src) dst)
  | none => none

/-! ## Self-update (`updateAgent` / `copyFile`, version-update file lines 79-164)

Go source of `copyFile`:
```
data, err := os.ReadFile(src)
if err != nil { return err }
return os.WriteFile(dst, data, 0755)
```
-/

def copyFile (fs : FS) (src dst : String) : Except String FS :=
  match fsLookup fs src with
  | none => .error "read failed"
  | some f => .ok (fsWriteFile fs dst f.content 0o755)

/-- Environment of one `updateAgent` invocation: the impure inputs that the
pure file-system steps depend on.  `download` is the combined result of
`CheckVersion` + `DownloadUpdate` (`none` = network failure, early return
before any file is touched); `validOk` is whether the subprocess run of
`<path>.new --version` exited cleanly; `renameOk` is whether `os.Rename`
succeeded. -/
structure UpdateEnv where
  execPath : String
  timestamp : String
  download : Option (List Nat)
  validOk : Bool
  renameOk : Bool
deriving DecidableEq, Repr

def backupPath (env : UpdateEnv) : String :=
  env.execPath ++ ".backup." ++ env.timestamp

def tempPath (env : UpdateEnv) : String :=
  env.execPath ++ ".new"

/-- Result of one `updateAgent` run: the returned error (if any) and the
final file-system state. -/
structure RunOutcome where
  err : Option String
  fs : FS
deriving DecidableEq, Repr

/-- Embedding of `updateAgent` (version-update file lines 79-154).  The
final `sendReport` call after a successful swap only logs its error and
never propagates it, so it does not appear in the outcome. -/
def updateAgent (env : UpdateEnv) (fs : FS) : RunOutcome :=
  match env.download with
  | none => { err := some "failed to download new agent", fs := fs }
  | some newAgentData =>
    match copyFile fs env.execPath (backupPath env) with
    | .error e => { err := some ("failed to create backup: " ++ e), fs := fs }
    | .ok fs1 =>
      let fs2 := fsWriteFile fs1 (tempPath env) newAgentData 0o755
      if env.validOk then
        if env.renameOk then
          match fsRename fs2 (tempPath env) env.execPath with
          | some fs3 => { err := none, fs := fs3 }
          | none => { err := some "failed to replace executable", fs := fs2 }
        else
          match fsRemove fs2 (tempPath env) with
          | some fs3 => { err := some "failed to replace executable", fs := fs3 }
          | none => { err := some "failed to replace executable", fs := fs2 }
      else
        match fsRemove fs2 (tempPath env) with
        | some fs3 => { err := some "new agent executable is invalid", fs := fs3 }
        | none => { err := some "new agent executable is invalid", fs := fs2 }

/-! ## Cron schedule generation (`generateCronEntries`, crontab.go lines 104-121)

`time.Now().Minute()` is the one impure input; it is passed explicitly as
`currentMinute`.  `cronSchedule` is the `schedule` local variable of the
source. -/

def cronSchedule (updateInterval : Int) (currentMinute : Nat) : String :=
  if updateInterval = 60 then
    toString currentMinute ++ " * * * *"
  else
    "*/" ++ toString updateInterval ++ " * * * *"

def generateCronEntries (updateInterval : Int) (currentMinute : Nat)
    (executablePath : String) : List String :=
  let schedule := cronSchedule updateInterval currentMinute
  [schedule ++ " root " ++ executablePath ++ " report >/dev/null 2>&1",
   schedule ++ " root " ++ executablePath ++ " update-crontab >/dev/null 2>&1"]

/-! ## Report tail (`sendReport`, report file lines 527-554)

After the payload is built, `sendReport` transmits it and then processes
the server's auto-update hint.  `sendReportTail` embeds that tail: its
inputs are the outcome of `httpClient.SendUpdate` and the outcome of the
`updateAgent()` call (consulted only on the should-update path), its
output the value `sendReport` returns together with the log lines of the
hint-processing branch. -/

structure AutoUpdatePolicy where
  shouldUpdate : Bool
  message : String
  currentVersion : String
  latestVersion : String
deriving DecidableEq, Repr

structure UpdateResponse where
  packagesProcessed : Int
  autoUpdate : Option AutoUpdatePolicy
deriving DecidableEq, Repr

inductive LogLevel
  | info
  | warn
deriving DecidableEq, Repr

def sendReportTail (sendResult : Except String UpdateResponse)
    (updateAgentResult : Except String Unit) :
    Except String Unit × List (LogLevel × String) :=
  match sendResult with
  | .error e => (.error ("failed to send report: " ++ e), [])
  | .ok response =>
    match response.autoUpdate with
    | some au =>
      if au.shouldUpdate then
        match updateAgentResult with
        | .error _ =>
          (.ok (), [(.warn, "PatchMon agent update failed, but data was sent successfully")])
        | .ok _ =>
          (.ok (), [(.info, "PatchMon agent update completed successfully")])
      else
        (.ok (), [])
    | none => (.ok (), [])

/-! ## Helper lemmas -/

theorem wsIter_le (b : Nat) (o : Bool) : b ≤ wsIter b o := by
  unfold wsIter
  split
  · omega
  · exact Nat.le_refl b

theorem backoffAfter_closed (n : Nat) : backoffAfter n = min (2 ^ n) 32 := by
  induction n with
  | zero => rfl
  | succ k ih =>
    rw [backoffAfter, wsIter, ih]
    rcases Nat.lt_or_ge k 5 with h | h
    · interval_cases k <;> decide
    · have h32 : 32 ≤ 2 ^ k := by
        calc 32 = 2 ^ 5 := by norm_num
        _ ≤ 2 ^ k := Nat.pow_le_pow_right (by norm_num) h
      have h64 : 32 ≤ 2 ^ (k + 1) :=
        le_trans h32 (Nat.pow_le_pow_right (by norm_num) (Nat.le_succ k))
      rw [Nat.min_eq_right h32, Nat.min_eq_right h64]
      simp

theorem foldl_wsIter_le (outs : List Bool) : ∀ b : Nat, b ≤ List.foldl wsIter b outs := by
  induction outs with
  | nil => intro b; simp
  | cons o rest ih =>
    intro b
    rw [List.foldl_cons]
    exact le_trans (wsIter_le b o) (ih (wsIter b o))

theorem tempPath_ne_execPath (env : UpdateEnv) : tempPath env ≠ env.execPath := by
  intro h
  have hl : (tempPath env).length = env.execPath.length := by rw [h]
  simp only [tempPath, String.length_append] at hl
  have h4 : (".new" : String).length = 4 := by decide
  omega

theorem backupPath_ne_execPath (env : UpdateEnv) : backupPath env ≠ env.execPath := by
  intro h
  have hl : (backupPath env).length = env.execPath.length := by rw [h]
  simp only [backupPath, String.length_append] at hl
  have h8 : (".backup." : String).length = 8 := by decide
  omega

theorem backupPath_ne_tempPath (env : UpdateEnv) : backupPath env ≠ tempPath env := by
  intro h
  have hl : (backupPath env).length = (tempPath env).length := by rw [h]
  simp only [backupPath, tempPath, String.length_append] at hl
  have h8 : (".backup." : String).length = 8 := by decide
  have h4 : (".new" : String).length = 4 := by decide
  omega

theorem fsLookup_fsErase_self (fs : FS) (p : String) :
    fsLookup (fsErase fs p) p = none := by
  induction fs with
  | nil => rfl
  | cons e rest ih =>
    obtain ⟨q, f⟩ := e
    by_cases h : q = p
    · simpa [fsErase, h] using ih
    · simpa [fsErase, fsLookup, h] using ih

theorem fsLookup_fsErase_ne (fs : FS) (p r : String) (h : r ≠ p) :
    fsLookup (fsErase fs p) r = fsLookup fs r := by
  induction fs with
  | nil => rfl
  | cons e rest ih =>
    obtain ⟨q, f⟩ := e
    by_cases hq : q = p
    · have hpr : ¬ p = r := fun hh => h hh.symm
      simpa [fsErase, fsLookup, hq, hpr] using ih
    · by_cases hr : q = r
      · simp [fsErase, fsLookup, hq, hr, h]
      · simpa [fsErase, fsLookup, hq, hr] using ih

theorem fsLookup_fsWriteFile_self_content (fs : FS) (p : String) (d : List Nat) (perm : Nat) :
    ∃ g : File, fsLookup (fsWriteFile fs p d perm) p = some g ∧ g.content = d := by
  unfold fsWriteFile
  cases hl : fsLookup fs p with
  | some f => exact ⟨⟨d, f.mode⟩, by simp [fsLookup], rfl⟩
  | none => exact ⟨⟨d, perm⟩, by simp [fsLookup], rfl⟩

theorem fsLookup_fsWriteFile_fresh (fs : FS) (p : String) (d : List Nat) (perm : Nat)
    (h : fsLookup fs p = none) :
    fsLookup (fsWriteFile fs p d perm) p = some ⟨d, perm⟩ := by
  unfold fsWriteFile
  rw [h]
  simp [fsLookup]

theorem fsLookup_fsWriteFile_ne (fs : FS) (p r : String) (d : List Nat) (perm : Nat)
    (h : r ≠ p) :
    fsLookup (fsWriteFile fs p d perm) r = fsLookup fs r := by
  have hp : ¬ p = r := fun hh => h hh.symm
  unfold fsWriteFile
  cases hl : fsLookup fs p with
  | some f => simp [fsLookup, hp, fsLookup_fsErase_ne fs p r h]
  | none => simp [fsLookup, hp]

theorem fsRemove_of_isSome (fs : FS) (p : String) (h : (fsLookup fs p).isSome) :
    fsRemove fs p = some (fsErase fs p) := by
  unfold fsRemove
  cases hl : fsLookup fs p with
  | some f => rfl
  | none => rw [hl] at h; simp at h

theorem updateAgent_validFail (env : UpdateEnv) (fs : FS) (d : List Nat) (f : File)
    (hdl : env.download = some d) (hv : env.validOk = false)
    (hf : fsLookup fs env.execPath = some f) :
    updateAgent env fs =
      { err := some "new agent executable is invalid",
        fs := fsErase
          (fsWriteFile (fsWriteFile fs (backupPath env) f.content 0o755) (tempPath env) d 0o755)
          (tempPath env) } := by
  have hcopy : copyFile fs env.execPath (backupPath env)
      = .ok (fsWriteFile fs (backupPath env) f.content 0o755) := by
    unfold copyFile
    rw [hf]
  have hsome : (fsLookup
      (fsWriteFile (fsWriteFile fs (backupPath env) f.content 0o755) (tempPath env) d 0o755)
      (tempPath env)).isSome := by
    obtain ⟨g, hg, -⟩ := fsLookup_fsWriteFile_self_content
      (fsWriteFile fs (backupPath env) f.content 0o755) (tempPath env) d 0o755
    rw [hg]
    rfl
  have hrem := fsRemove_of_isSome _ _ hsome
  unfold updateAgent
  rw [hdl]
  simp only [hcopy, hv, hrem]
  simp

theorem updateAgent_renameFail (env : UpdateEnv) (fs : FS) (d : List Nat) (f : File)
    (hdl : env.download = some d) (hv : env.validOk = true) (hr : env.renameOk = false)
    (hf : fsLookup fs env.execPath = some f) :
    updateAgent env fs =
      { err := some "failed to replace executable",
        fs := fsErase
          (fsWriteFile (fsWriteFile fs (backupPath env) f.content 0o755) (tempPath env) d 0o755)
          (tempPath env) } := by
  have hcopy : copyFile fs env.execPath (backupPath env)
      = .ok (fsWriteFile fs (backupPath env) f.content 0o755) := by
    unfold copyFile
    rw [hf]
  have hsome : (fsLookup
      (fsWriteFile (fsWriteFile fs (backupPath env) f.content 0o755) (tempPath env) d 0o755)
      (tempPath env)).isSome := by
    obtain ⟨g, hg, -⟩ := fsLookup_fsWriteFile_self_content
      (fsWriteFile fs (backupPath env) f.content 0o755) (tempPath env) d 0o755
    rw [hg]
    rfl
  have hrem := fsRemove_of_isSome _ _ hsome
  unfold updateAgent
  rw [hdl]
  simp only [hcopy, hv, hr, hrem]
  simp

theorem updateAgent_success (env : UpdateEnv) (fs : FS) (d : List Nat) (f : File)
    (hdl : env.download = some d) (hv : env.validOk = true) (hr : env.renameOk = true)
    (hf : fsLookup fs env.execPath = some f) :
    ∃ g : File, g.content = d ∧
      updateAgent env fs =
        { err := none,
          fs := (env.execPath, g) :: fsErase
            (fsErase
              (fsWriteFile (fsWriteFile fs (backupPath env) f.content 0o755) (tempPath env) d 0o755)
              (tempPath env))
            env.execPath } := by
  have hcopy : copyFile fs env.execPath (backupPath env)
      = .ok (fsWriteFile fs (backupPath env) f.content 0o755) := by
    unfold copyFile
    rw [hf]
  obtain ⟨g, hg, hgc⟩ := fsLookup_fsWriteFile_self_content
    (fsWriteFile fs (backupPath env) f.content 0o755) (tempPath env) d 0o755
  have hren : fsRename
      (fsWriteFile (fsWriteFile fs (backupPath env) f.content 0o755) (tempPath env) d 0o755)
      (tempPath env) env.execPath
      = some ((env.execPath, g) :: fsErase
          (fsErase
            (fsWriteFile (fsWriteFile fs (backupPath env) f.content 0o755) (tempPath env) d 0o755)
            (tempPath env))
          env.execPath) := by
    unfold fsRename
    rw [hg]
  refine ⟨g, hgc, ?_⟩
  unfold updateAgent
  rw [hdl]
  simp only [hcopy, hv, hr, hren]
  simp

/-! ## Claim theorems -/

/-- C1 counterexample: the claim says the reconnect wait before attempt
N+1 equals min(2^(N-1) s, 30 s); at N = 6 the code waits 32 s (backoff
doubles whenever it is still below 30 s), while the claimed formula gives
30 s. -/
theorem backoff_wait_cap30_counterexample :
    backoffAfter (6 - 1) = 32 ∧ min (2 ^ (6 - 1)) 30 = 30 ∧
    backoffAfter (6 - 1) ≠ min (2 ^ (6 - 1)) 30 := by
  decide

/-- C1 (amended): for every N ≥ 1, the reconnect wait before attempt N+1
after N consecutive failed connects equals min(2^(N-1) seconds, 32 seconds):
the wsLoop backoff starts at 1 second for the first retry, doubles after
every reattempt while still below 30 seconds, and therefore settles at a
32-second ceiling rather than 30. -/
theorem backoff_wait_min_pow_capped32 (N : Nat) (_h : 1 ≤ N) :
    backoffAfter (N - 1) = min (2 ^ (N - 1)) 32 :=
  backoffAfter_closed (N - 1)

/-- C1 witness: the amended formula instantiated at N = 6. -/
theorem backoff_wait_min_pow_capped32_witness :
    1 ≤ 6 ∧ backoffAfter (6 - 1) = min (2 ^ (6 - 1)) 32 :=
  ⟨by decide, backoff_wait_min_pow_capped32 6 (by decide)⟩

/-- C3 (confirmed): the wsLoop backoff value is monotonically
non-decreasing over the whole process lifetime: for every sequence of
connection outcomes (successes included — the source updates `backoff`
identically either way), the value after a prefix of iterations is never
larger than after any extension, so a successful connection that later
drops leaves reconnects starting from the elevated value, never from the
1-second floor again. -/
theorem backoff_monotone_lifetime (pre post : List Bool) (b : Nat) :
    List.foldl wsIter b pre ≤ List.foldl wsIter b (pre ++ post) := by
  rw [List.foldl_append]
  exact foldl_wsIter_le post _

/-- C2 (confirmed): if validation of the downloaded binary fails (the
subprocess run of `<path>.new --version` exits non-zero), updateAgent
returns an error, the file at the original executable path is exactly the
one present before the attempt (hence byte-identical), and the temporary
file `<path>.new` does not exist afterwards. -/
theorem updateAgent_validation_failure_rollback (env : UpdateEnv) (fs : FS)
    (d : List Nat) (f : File)
    (hdl : env.download = some d) (hv : env.validOk = false)
    (hf : fsLookup fs env.execPath = some f) :
    (updateAgent env fs).err.isSome = true ∧
    fsLookup (updateAgent env fs).fs env.execPath = some f ∧
    fsLookup (updateAgent env fs).fs (tempPath env) = none := by
  rw [updateAgent_validFail env fs d f hdl hv hf]
  refine ⟨rfl, ?_, ?_⟩
  · have h1 : env.execPath ≠ tempPath env := fun hh => tempPath_ne_execPath env hh.symm
    have h2 : env.execPath ≠ backupPath env := fun hh => backupPath_ne_execPath env hh.symm
    rw [fsLookup_fsErase_ne _ _ _ h1, fsLookup_fsWriteFile_ne _ _ _ _ _ h1,
        fsLookup_fsWriteFile_ne _ _ _ _ _ h2]
    exact hf
  · exact fsLookup_fsErase_self _ _

/-- C2 witness: a concrete run with a failing validation step. -/
theorem updateAgent_validation_failure_rollback_witness :
    (UpdateEnv.mk "/a" "t" (some [9]) false true).download = some [9] ∧
    (UpdateEnv.mk "/a" "t" (some [9]) false true).validOk = false ∧
    fsLookup [("/a", File.mk [7] 448)]
      (UpdateEnv.mk "/a" "t" (some [9]) false true).execPath = some (File.mk [7] 448) ∧
    ((updateAgent (UpdateEnv.mk "/a" "t" (some [9]) false true)
        [("/a", File.mk [7] 448)]).err.isSome = true ∧
     fsLookup (updateAgent (UpdateEnv.mk "/a" "t" (some [9]) false true)
        [("/a", File.mk [7] 448)]).fs
        (UpdateEnv.mk "/a" "t" (some [9]) false true).execPath = some (File.mk [7] 448) ∧
     fsLookup (updateAgent (UpdateEnv.mk "/a" "t" (some [9]) false true)
        [("/a", File.mk [7] 448)]).fs
        (tempPath (UpdateEnv.mk "/a" "t" (some [9]) false true)) = none) :=
  ⟨rfl, rfl, by decide,
    updateAgent_validation_failure_rollback _ _ [9] (File.mk [7] 448) rfl rfl (by decide)⟩

/-- C4 counterexample: copyFile does not preserve the source's permission
bits — for an original executable with mode 0o700 the backup is written
with mode 0o755, so the claim "for every source file mode the backup has
the same permissions as the original" is false. -/
theorem copyFile_mode_counterexample :
    (fsLookup [("/a", File.mk [7] 0o700)] "/a").map File.mode = some 0o700 ∧
    copyFile [("/a", File.mk [7] 0o700)] "/a" "/a.b"
      = Except.ok [("/a.b", File.mk [7] 0o755), ("/a", File.mk [7] 0o700)] ∧
    (fsLookup [("/a.b", File.mk [7] 0o755), ("/a", File.mk [7] 0o700)] "/a.b").map File.mode
      = some 0o755 ∧
    (0o755 : Nat) ≠ 0o700 := by
  refine ⟨by decide, rfl, by decide, by decide⟩

/-- C4 (amended): the backup step copies the current executable's bytes
faithfully but writes the backup with the fixed permission bits 0o755
(`os.WriteFile(dst, data, 0755)`) regardless of the original file's mode;
the backup is therefore always executable, and its permissions equal the
original's only when the original mode is itself 0o755. -/
theorem copyFile_backup_fixed_mode (fs : FS) (src dst : String) (f : File)
    (hs : fsLookup fs src = some f) (hd : fsLookup fs dst = none) :
    copyFile fs src dst = Except.ok (fsWriteFile fs dst f.content 0o755) ∧
    fsLookup (fsWriteFile fs dst f.content 0o755) dst = some (File.mk f.content 0o755) := by
  constructor
  · unfold copyFile
    rw [hs]
  · exact fsLookup_fsWriteFile_fresh fs dst f.content 0o755 hd

/-- C4 witness: a concrete 0o700 original whose backup comes out 0o755. -/
theorem copyFile_backup_fixed_mode_witness :
    fsLookup [("/a", File.mk [7] 0o700)] "/a" = some (File.mk [7] 0o700) ∧
    fsLookup [("/a", File.mk [7] 0o700)] "/a.b" = none ∧
    (copyFile [("/a", File.mk [7] 0o700)] "/a" "/a.b"
        = Except.ok (fsWriteFile [("/a", File.mk [7] 0o700)] "/a.b" [7] 0o755) ∧
     fsLookup (fsWriteFile [("/a", File.mk [7] 0o700)] "/a.b" [7] 0o755) "/a.b"
        = some (File.mk [7] 0o755)) :=
  ⟨by decide, by decide,
    copyFile_backup_fixed_mode _ _ _ (File.mk [7] 0o700) (by decide) (by decide)⟩

/-- C5 (confirmed): if the atomic rename of updateAgent succeeds, the run
returns no error and the backup file at `<path>.backup.<timestamp>` exists
with content byte-identical to the pre-update original executable's
content. -/
theorem updateAgent_success_backup_intact (env : UpdateEnv) (fs : FS)
    (d : List Nat) (f : File)
    (hdl : env.download = some d) (hv : env.validOk = true) (hr : env.renameOk = true)
    (hf : fsLookup fs env.execPath = some f) :
    (updateAgent env fs).err = none ∧
    (fsLookup (updateAgent env fs).fs (backupPath env)).map File.content = some f.content := by
  obtain ⟨g, hgc, heq⟩ := updateAgent_success env fs d f hdl hv hr hf
  rw [heq]
  refine ⟨rfl, ?_⟩
  have hne : ¬ env.execPath = backupPath env := fun hh => backupPath_ne_execPath env hh.symm
  simp only [fsLookup, hne, if_false]
  rw [fsLookup_fsErase_ne _ _ _ (backupPath_ne_execPath env),
      fsLookup_fsErase_ne _ _ _ (backupPath_ne_tempPath env),
      fsLookup_fsWriteFile_ne _ _ _ _ _ (backupPath_ne_tempPath env)]
  obtain ⟨g2, hg2, hg2c⟩ := fsLookup_fsWriteFile_self_content fs (backupPath env) f.content 0o755
  simp [hg2, hg2c]

/-- C5 witness: a concrete fully successful update run. -/
theorem updateAgent_success_backup_intact_witness :
    (UpdateEnv.mk "/a" "t" (some [9]) true true).download = some [9] ∧
    (UpdateEnv.mk "/a" "t" (some [9]) true true).validOk = true ∧
    (UpdateEnv.mk "/a" "t" (some [9]) true true).renameOk = true ∧
    fsLookup [("/a", File.mk [7] 448)]
      (UpdateEnv.mk "/a" "t" (some [9]) true true).execPath = some (File.mk [7] 448) ∧
    ((updateAgent (UpdateEnv.mk "/a" "t" (some [9]) true true)
        [("/a", File.mk [7] 448)]).err = none ∧
     (fsLookup (updateAgent (UpdateEnv.mk "/a" "t" (some [9]) true true)
        [("/a", File.mk [7] 448)]).fs
        (backupPath (UpdateEnv.mk "/a" "t" (some [9]) true true))).map File.content
        = some (File.mk [7] 448).content) :=
  ⟨rfl, rfl, rfl, by decide,
    updateAgent_success_backup_intact _ _ [9] (File.mk [7] 448) rfl rfl rfl (by decide)⟩

/-- C10 (confirmed): when updateAgent aborts at the validation step or at
the rename step, the run returns an error yet the timestamped backup file
created in step 4 is still present afterwards with the original
executable's content — every failed attempt past the backup step leaves
one backup file behind even though the update did not happen. -/
theorem updateAgent_failure_leaves_backup (env : UpdateEnv) (fs : FS)
    (d : List Nat) (f : File)
    (hdl : env.download = some d)
    (hfail : env.validOk = false ∨ env.renameOk = false)
    (hf : fsLookup fs env.execPath = some f) :
    (updateAgent env fs).err.isSome = true ∧
    (fsLookup (updateAgent env fs).fs (backupPath env)).map File.content = some f.content := by
  have hback : (fsLookup
      (fsErase (fsWriteFile (fsWriteFile fs (backupPath env) f.content 0o755)
        (tempPath env) d 0o755) (tempPath env))
      (backupPath env)).map File.content = some f.content := by
    rw [fsLookup_fsErase_ne _ _ _ (backupPath_ne_tempPath env),
        fsLookup_fsWriteFile_ne _ _ _ _ _ (backupPath_ne_tempPath env)]
    obtain ⟨g, hg, hgc⟩ := fsLookup_fsWriteFile_self_content fs (backupPath env) f.content 0o755
    simp [hg, hgc]
  cases hv : env.validOk with
  | false =>
    rw [updateAgent_validFail env fs d f hdl hv hf]
    exact ⟨rfl, hback⟩
  | true =>
    have hr : env.renameOk = false := by
      rcases hfail with h | h
      · rw [hv] at h
        exact absurd h (by simp)
      · exact h
    rw [updateAgent_renameFail env fs d f hdl hv hr hf]
    exact ⟨rfl, hback⟩

/-- C10 witness: a concrete run failing at the rename step. -/
theorem updateAgent_failure_leaves_backup_witness :
    (UpdateEnv.mk "/a" "t" (some [9]) true false).download = some [9] ∧
    ((UpdateEnv.mk "/a" "t" (some [9]) true false).validOk = false ∨
     (UpdateEnv.mk "/a" "t" (some [9]) true false).renameOk = false) ∧
    fsLookup [("/a", File.mk [7] 448)]
      (UpdateEnv.mk "/a" "t" (some [9]) true false).execPath = some (File.mk [7] 448) ∧
    ((updateAgent (UpdateEnv.mk "/a" "t" (some [9]) true false)
        [("/a", File.mk [7] 448)]).err.isSome = true ∧
     (fsLookup (updateAgent (UpdateEnv.mk "/a" "t" (some [9]) true false)
        [("/a", File.mk [7] 448)]).fs
        (backupPath (UpdateEnv.mk "/a" "t" (some [9]) true false))).map File.content
        = some (File.mk [7] 448).content) :=
  ⟨rfl, Or.inr rfl, by decide,
    updateAgent_failure_leaves_backup _ _ [9] (File.mk [7] 448) rfl (Or.inr rfl) (by decide)⟩

/-- C6 (confirmed): a settings_update message, whatever interval it
carries, never triggers a report or an update in the dispatch loop; and
across all events, a report or update action is triggered only by a timer
tick, a report_now message, an update_agent message, or an
update_notification with force set. -/
theorem settings_update_triggers_no_report (s : LoopState) (m : WsMsg) (e : Event)
    (h : m.kind = "settings_update") :
    Action.sendReport ∉ (dispatch s (Event.msg m)).2 ∧
    Action.updateAgentAction ∉ (dispatch s (Event.msg m)).2 ∧
    (Action.sendReport ∈ (dispatch s e).2 ∨ Action.updateAgentAction ∈ (dispatch s e).2 →
      e = Event.tick ∨ ∃ m2, e = Event.msg m2 ∧
        (m2.kind = "report_now" ∨ m2.kind = "update_agent" ∨
          (m2.kind = "update_notification" ∧ m2.force = true))) := by
  refine ⟨?_, ?_, ?_⟩
  · by_cases hi : m.interval > 0 <;> simp [dispatch, h, hi]
  · by_cases hi : m.interval > 0 <;> simp [dispatch, h, hi]
  · intro hmem
    cases e with
    | tick => exact Or.inl rfl
    | msg m2 =>
      refine Or.inr ⟨m2, rfl, ?_⟩
      by_cases h1 : m2.kind = "settings_update"
      · exfalso
        by_cases hi : m2.interval > 0 <;> simp [dispatch, h1, hi] at hmem
      · by_cases h2 : m2.kind = "report_now"
        · exact Or.inl h2
        · by_cases h3 : m2.kind = "update_agent"
          · exact Or.inr (Or.inl h3)
          · by_cases h4 : m2.kind = "update_notification"
            · cases hfc : m2.force with
              | true => exact Or.inr (Or.inr ⟨h4, rfl⟩)
              | false =>
                exfalso
                simp [dispatch, h1, h2, h3, h4, hfc] at hmem
            · exfalso
              simp [dispatch, h1, h2, h3, h4] at hmem

/-- C6 witness: a concrete settings_update message and a tick event. -/
theorem settings_update_triggers_no_report_witness :
    (WsMsg.mk "settings_update" 5 "" false).kind = "settings_update" ∧
    (Action.sendReport ∉
        (dispatch (LoopState.mk 60) (Event.msg (WsMsg.mk "settings_update" 5 "" false))).2 ∧
     Action.updateAgentAction ∉
        (dispatch (LoopState.mk 60) (Event.msg (WsMsg.mk "settings_update" 5 "" false))).2 ∧
     (Action.sendReport ∈ (dispatch (LoopState.mk 60) Event.tick).2 ∨
      Action.updateAgentAction ∈ (dispatch (LoopState.mk 60) Event.tick).2 →
        Event.tick = Event.tick ∨ ∃ m2, Event.tick = Event.msg m2 ∧
          (m2.kind = "report_now" ∨ m2.kind = "update_agent" ∨
            (m2.kind = "update_notification" ∧ m2.force = true)))) :=
  ⟨rfl, settings_update_triggers_no_report (LoopState.mk 60)
    (WsMsg.mk "settings_update" 5 "" false) Event.tick rfl⟩

/-- C7 (confirmed): a settings_update message whose update_interval is 0
or negative is rejected by the dispatch loop: state and ticker are left
untouched and no action is performed. -/
theorem settings_update_nonpositive_rejected (s : LoopState) (m : WsMsg)
    (hk : m.kind = "settings_update") (hi : m.interval ≤ 0) :
    dispatch s (Event.msg m) = (s, []) := by
  have hni : ¬ m.interval > 0 := by omega
  simp [dispatch, hk, hni]

/-- C7 witness: a settings_update carrying interval 0. -/
theorem settings_update_nonpositive_rejected_witness :
    (WsMsg.mk "settings_update" 0 "" false).kind = "settings_update" ∧
    (WsMsg.mk "settings_update" 0 "" false).interval ≤ 0 ∧
    dispatch (LoopState.mk 60) (Event.msg (WsMsg.mk "settings_update" 0 "" false))
      = (LoopState.mk 60, []) :=
  ⟨rfl, by decide,
    settings_update_nonpositive_rejected (LoopState.mk 60)
      (WsMsg.mk "settings_update" 0 "" false) rfl (by decide)⟩

/-- C8 (confirmed): with an update interval of exactly 60 minutes the
generated cron schedule is "<m> * * * *" where m is the current wall-clock
minute at generation time, and for every other positive interval i it is
"*/i * * * *"; the two generated cron entries both use that schedule. -/
theorem cron_schedule_by_interval (i : Int) (minute : Nat) (path : String) (_hi : 0 < i) :
    (i = 60 → cronSchedule i minute = toString minute ++ " * * * *") ∧
    (i ≠ 60 → cronSchedule i minute = "*/" ++ toString i ++ " * * * *") ∧
    generateCronEntries i minute path =
      [cronSchedule i minute ++ " root " ++ path ++ " report >/dev/null 2>&1",
       cronSchedule i minute ++ " root " ++ path ++ " update-crontab >/dev/null 2>&1"] := by
  refine ⟨fun h => by simp [cronSchedule, h], fun h => by simp [cronSchedule, h], rfl⟩

/-- C8 witness: interval 60 at current minute 23. -/
theorem cron_schedule_by_interval_witness :
    (0 : Int) < 60 ∧
    (((60 : Int) = 60 → cronSchedule 60 23 = toString (23 : Nat) ++ " * * * *") ∧
     ((60 : Int) ≠ 60 → cronSchedule 60 23 = "*/" ++ toString (60 : Int) ++ " * * * *") ∧
     generateCronEntries 60 23 "/a" =
       [cronSchedule 60 23 ++ " root " ++ "/a" ++ " report >/dev/null 2>&1",
        cronSchedule 60 23 ++ " root " ++ "/a" ++ " update-crontab >/dev/null 2>&1"]) :=
  ⟨by decide, cron_schedule_by_interval 60 23 "/a" (by decide)⟩

/-- C9 (confirmed): when the report payload was transmitted successfully
but the server's auto-update hint makes the nested updateAgent call fail,
sendReport still returns no error: the secondary failure is logged as a
warning and never propagated to the caller. -/
theorem sendReport_update_failure_not_escalated (resp : UpdateResponse)
    (au : AutoUpdatePolicy) (e : String)
    (hau : resp.autoUpdate = some au) (hs : au.shouldUpdate = true) :
    (sendReportTail (Except.ok resp) (Except.error e)).1 = Except.ok () ∧
    (sendReportTail (Except.ok resp) (Except.error e)).2
      = [(LogLevel.warn, "PatchMon agent update failed, but data was sent successfully")] := by
  simp [sendReportTail, hau, hs]

/-- C9 witness: a concrete response carrying a should-update hint and a
failing update. -/
theorem sendReport_update_failure_not_escalated_witness :
    (UpdateResponse.mk 0 (some (AutoUpdatePolicy.mk true "" "" ""))).autoUpdate
      = some (AutoUpdatePolicy.mk true "" "" "") ∧
    (AutoUpdatePolicy.mk true "" "" "").shouldUpdate = true ∧
    ((sendReportTail (Except.ok (UpdateResponse.mk 0 (some (AutoUpdatePolicy.mk true "" "" ""))))
        (Except.error "x")).1 = Except.ok () ∧
     (sendReportTail (Except.ok (UpdateResponse.mk 0 (some (AutoUpdatePolicy.mk true "" "" ""))))
        (Except.error "x")).2
       = [(LogLevel.warn, "PatchMon agent update failed, but data was sent successfully")]) :=
  ⟨rfl, rfl,
    sendReport_update_failure_not_escalated
      (UpdateResponse.mk 0 (some (AutoUpdatePolicy.mk true "" "" ""))) _ "x" rfl rfl⟩

end PatchMon
